import Mathlib

/-!
Verification of the log-tailing / event-parsing / session-tracking core of the
VRChat join-notification companion (`src/vrchat_join_notification/app.py`).

The Python code is shallowly embedded: strings are `String` (processed as
`List Char`), timestamps (`datetime.utcnow()`) are explicit `Int` seconds
passed to each handler, the mutable `SessionTracker` object becomes a
`TrackerState` record threaded through pure handler functions, and the two
notification sinks are modelled by returning the list of dispatched
notifications.  The external process-presence check `is_vrchat_running()` is
modelled as a `Bool` argument of the handlers that consult it.
-/

namespace VRChatJoin

/-- Characters removed by `strip_zero_width`
(`re.sub` over U+200B..U+200D and U+FEFF). -/
def isZeroWidth (c : Char) : Bool :=
  c = Char.ofNat 0x200B ∨ c = Char.ofNat 0x200C ∨ c = Char.ofNat 0x200D ∨
    c = Char.ofNat 0xFEFF

/-- Model of `strip_zero_width` on a character list. -/
def stripZeroWidthL (l : List Char) : List Char :=
  l.filter (fun c => ¬ isZeroWidth c)

/-- Whitespace as stripped by Python's `str.strip()` / matched by `\s`
(ASCII whitespace plus NBSP; rarer Unicode space characters are not
exercised by this code's inputs). -/
def pySpaceChar (c : Char) : Bool :=
  c = ' ' ∨ c = '\t' ∨ c = '\n' ∨ c = '\r' ∨ c = '\x0b' ∨ c = '\x0c' ∨
    c = Char.ofNat 0xA0

/-- Strip characters satisfying `p` from both ends (Python `str.strip(chars)`). -/
def pyStripSet (p : Char → Bool) (l : List Char) : List Char :=
  ((l.dropWhile p).reverse.dropWhile p).reverse

/-- Python `str.strip()` (no argument): strip whitespace from both ends. -/
def pyStripL (l : List Char) : List Char :=
  pyStripSet pySpaceChar l

/-- Python `str.strip()` on a `String`. -/
def pyStrip (s : String) : String :=
  ⟨pyStripL s.data⟩

/-- ASCII lowering, as used by this code (`str.lower()` on ASCII data). -/
def lowerL (l : List Char) : List Char :=
  l.map Char.toLower

/-- Model of `str.lower()` on a `String`. -/
def lowerStr (s : String) : String :=
  ⟨lowerL s.data⟩

/-- Python `"||".replace` target: `text.replace("||", "|")`, scanning left to
right over non-overlapping occurrences. -/
def collapsePipes : List Char → List Char
  | '|' :: '|' :: rest => '|' :: collapsePipes rest
  | c :: rest => c :: collapsePipes rest
  | [] => []

/-- The leading-punctuation set `"-—–:|"` used by `normalize_join_fragment`'s
`lstrip` and by the loop in `parse_player_event_line`. -/
def isDashPunct (c : Char) : Bool :=
  c = '-' ∨ c = '—' ∨ c = '–' ∨ c = ':' ∨ c = '|'

/-- Model of `normalize_join_fragment`:
strip zero-width characters, turn full-width spaces into spaces, trim
whitespace and surrounding quotes, collapse `||` into `|`, trim leading
dashes/colons/pipes, truncate to 160 characters, and map an all-punctuation
fragment to the empty string. -/
def normalizeFragL (text : List Char) : List Char :=
  let clean := stripZeroWidthL text
  let clean := clean.map (fun c => if c = Char.ofNat 0x3000 then ' ' else c)
  let clean := pyStripL clean
  let clean := pyStripSet (fun c => c = '"') clean
  let clean := pyStripSet (fun c => c = (Char.ofNat 39)) clean
  let clean := collapsePipes clean
  let clean := clean.dropWhile isDashPunct
  let clean := pyStripL clean
  let clean := if 160 < clean.length then pyStripL (clean.take 160) else clean
  if clean ≠ [] ∧ clean.all isDashPunct then [] else clean

/-- Model of `normalize_join_fragment` on `String`. -/
def normalize_join_fragment (s : String) : String :=
  ⟨normalizeFragL s.data⟩

/-- Model of `normalize_join_name` (normalises and defaults to the empty string). -/
def normalize_join_name (s : String) : String :=
  normalize_join_fragment s

/-- Model of `is_placeholder_name`: empty, or case-insensitively one of
`player`, `you`, `someone`, `a player`. -/
def isPlaceholderL (name : List Char) : Bool :=
  if name = [] then true
  else
    let t := lowerL (pyStripL name)
    t = "player".data ∨ t = "you".data ∨ t = "someone".data ∨ t = "a player".data

/-- Model of `is_placeholder_name` on `String`. -/
def is_placeholder_name (s : String) : Bool :=
  isPlaceholderL s.data

/-- Word characters for the regex `\b` boundary (`[A-Za-z0-9_]`). -/
def isWordChar (c : Char) : Bool :=
  c.isAlphanum ∨ c = '_'

/-- Whether the optional previous character makes a `\b` boundary:
there is a boundary when there is no previous character or it is a
non-word character. -/
def isWordOpt : Option Char → Bool
  | none => false
  | some c => isWordChar c

/-- Case-insensitive prefix test: does `s` start with `kw` (where `kw` is
already lowercased)? -/
def ciPrefix (kw : List Char) (s : List Char) : Bool :=
  kw.isPrefixOf (lowerL (s.take kw.length))

/-- Model of `str.find` of a (lowercased) needle inside the lowercased line, returning
the original-case suffix of the line starting right after the first
occurrence (the model of `line[index + len(needle):]`). -/
def dropThroughCI (needle : List Char) : List Char → Option (List Char)
  | [] => if needle = [] then some [] else none
  | c :: rest =>
    if ciPrefix needle (c :: rest) then some ((c :: rest).drop needle.length)
    else dropThroughCI needle rest

/-- The loop `while after and after[0] in ":|-–—": after = after[1:].lstrip()`.
`stripMode` records whether we may still be consuming the whitespace produced
by the last `lstrip`. -/
def trimLeadPunct : Bool → List Char → List Char
  | _, [] => []
  | stripMode, c :: rest =>
    if stripMode ∧ pySpaceChar c then trimLeadPunct true rest
    else if isDashPunct c then trimLeadPunct true rest
    else c :: rest

/-- One keyword alternative of `re.split(r"(?i)\b(displayName|name|userId)\b", ...)`:
does the word-bounded keyword `kw` (lowercased) start here?  The boundary
before the keyword is supplied by the caller via `prev`. -/
def kwBoundedHere (kw : List Char) (s : List Char) : Bool :=
  ciPrefix kw s &&
    (match (s.drop kw.length).head? with
     | none => true
     | some c => ! isWordChar c)

/-- The part of `after` before the leftmost word-bounded occurrence of
`displayName`, `name` or `userId`
(`re.split(r"(?i)\b(displayName|name|userId)\b", after, maxsplit=1)[0]`). -/
def takeBeforeKeyword : Option Char → List Char → List Char
  | _, [] => []
  | prev, c :: rest =>
    if ¬ isWordOpt prev ∧
        (kwBoundedHere "displayname".data (c :: rest) ∨
         kwBoundedHere "name".data (c :: rest) ∨
         kwBoundedHere "userid".data (c :: rest)) then []
    else c :: takeBeforeKeyword (some c) rest

/-- Python `candidate.split(ch, 1)[0]`: the part before the first `ch`. -/
def takeUntilChar (ch : Char) (l : List Char) : List Char :=
  l.takeWhile (fun c => c ≠ ch)

/-- Model of `re.search` for `kw\s*[:=]\s*([^,\]\)]+)` (optionally with a `\b` before
`kw`, as in `\bname...`), returning the captured group of the leftmost match.
When the greedy `\s*` leaves nothing for the group, the regex backtracks and
the group captures the last whitespace character instead. -/
def findKVGroup (kw : List Char) (reqBound : Bool) :
    Option Char → List Char → Option (List Char)
  | _, [] => none
  | prev, c :: rest =>
    let tryHere : Option (List Char) :=
      if (¬ reqBound ∨ ¬ isWordOpt prev) ∧ ciPrefix kw (c :: rest) then
        match ((c :: rest).drop kw.length).dropWhile pySpaceChar with
        | d :: r2 =>
          if d = ':' ∨ d = '=' then
            let sp := r2.takeWhile pySpaceChar
            let grp := (r2.dropWhile pySpaceChar).takeWhile
              (fun x => ¬ (x = ',' ∨ x = ']' ∨ x = ')'))
            if grp ≠ [] then some grp
            else if sp ≠ [] then some [sp.getLastD ' ']
            else none
          else none
        | [] => none
      else none
    match tryHere with
    | some g => some g
    | none => findKVGroup kw reqBound (some c) rest

/-- Model of `re.search(r"(?i)\(usr_[^\)\s]+\)", after)`: the leftmost parenthesised
`usr_…` token, returned as the full original-case match. -/
def findParenUsr : List Char → Option (List Char)
  | [] => none
  | c :: rest =>
    (if c = '(' ∧ ciPrefix "usr_".data rest then
      let body := (rest.drop 4).takeWhile (fun x => x ≠ ')' ∧ ¬ pySpaceChar x)
      if body ≠ [] ∧ ((rest.drop 4).drop body.length).head? = some ')' then
        some ('(' :: rest.take (4 + body.length) ++ [')'])
      else findParenUsr rest
    else findParenUsr rest)

/-- Model of `re.search(r"(?i)userId\s*[:=]\s*(usr_[0-9a-f\-]+)", after)`: the captured
`usr_…` group of the leftmost match (`IGNORECASE` also admits `A-F`). -/
def findUserIdKV : List Char → Option (List Char)
  | [] => none
  | c :: rest =>
    (if ciPrefix "userid".data (c :: rest) then
      match ((c :: rest).drop 6).dropWhile pySpaceChar with
      | d :: r2 =>
        if d = ':' ∨ d = '=' then
          let r3 := r2.dropWhile pySpaceChar
          if ciPrefix "usr_".data r3 then
            let body := (r3.drop 4).takeWhile
              (fun x => x.isDigit ∨ ('a' ≤ x ∧ x ≤ 'f') ∨ ('A' ≤ x ∧ x ≤ 'F') ∨ x = '-')
            if body ≠ [] then some (r3.take (4 + body.length))
            else findUserIdKV rest
          else findUserIdKV rest
        else findUserIdKV rest
      | [] => findUserIdKV rest
    else findUserIdKV rest)

/-- Model of `re.sub(pattern, "", text)`: delete every non-overlapping leftmost match.
`matchLen` reports the length of a match starting at the current position.
The fuel argument (instantiated with the list length) only serves structural
termination; every reported match has positive length. -/
def subScan (matchLen : List Char → Option Nat) : Nat → List Char → List Char
  | 0, l => l
  | _ + 1, [] => []
  | fuel + 1, c :: rest =>
    match matchLen (c :: rest) with
    | some n =>
      if n = 0 then c :: subScan matchLen fuel rest
      else subScan matchLen fuel ((c :: rest).drop n)
    | none => c :: subScan matchLen fuel rest

/-- Match length for a case-insensitive literal pattern (`re.escape`d text). -/
def literalCIMatch (pat : List Char) (s : List Char) : Option Nat :=
  if ciPrefix (lowerL pat) s then some pat.length else none

/-- Match length for `\(usr_[^\)]*\)` (case-insensitive). -/
def parenUsrMatch (s : List Char) : Option Nat :=
  match s with
  | c :: rest =>
    if c = '(' ∧ ciPrefix "usr_".data rest then
      let body := (rest.drop 4).takeWhile (fun x => x ≠ ')')
      if ((rest.drop 4).drop body.length).head? = some ')' then
        some (1 + 4 + body.length + 1)
      else none
    else none
  | [] => none

/-- Match length for `\(userId[^\)]*\)` (case-insensitive). -/
def parenUserIdMatch (s : List Char) : Option Nat :=
  match s with
  | c :: rest =>
    if c = '(' ∧ ciPrefix "userid".data rest then
      let body := (rest.drop 6).takeWhile (fun x => x ≠ ')')
      if ((rest.drop 6).drop body.length).head? = some ')' then
        some (1 + 6 + body.length + 1)
      else none
    else none
  | [] => none

/-- Match length for a bracketed region such as `\[[^\]]*\]`. -/
def delimMatch (opener closer : Char) (s : List Char) : Option Nat :=
  match s with
  | c :: rest =>
    if c = opener then
      let body := rest.takeWhile (fun x => x ≠ closer)
      if (rest.drop body.length).head? = some closer then
        some (1 + body.length + 1)
      else none
    else none
  | [] => none

/-- Result record of `parse_player_event_line`. -/
structure PlayerEventMatch where
  name : String
  userId : String
  placeholder : String
  rawLine : String
deriving DecidableEq

/-- Model of `parse_player_event_line(line, event_token)`: locate the event token
case-insensitively, then extract a display name, a `usr_…` user id and an
optional placeholder token from the text after it, exactly following the
source's ordered fallback chain. -/
def parse_player_event_line (line : String) (eventToken : String) :
    Option PlayerEventMatch :=
  if line = "" then none
  else
    match dropThroughCI (lowerL eventToken.data) line.data with
    | none => none
    | some afterRaw =>
      let after := pyStripL (stripZeroWidthL afterRaw)
      let after := trimLeadPunct false after
      let placeholder :=
        if after ≠ [] then
          let cand := takeBeforeKeyword none after
          let cand := takeUntilChar '(' cand
          let cand := takeUntilChar '[' cand
          let cand := takeUntilChar (Char.ofNat 123) cand
          let cand := takeUntilChar '<' cand
          let cand := normalizeFragL cand
          if isPlaceholderL cand then cand else []
        else []
      let d1 :=
        match findKVGroup "displayname".data false none after with
        | some g => normalizeFragL g
        | none => []
      let d2 :=
        if d1 = [] then
          match findKVGroup "name".data true none after with
          | some g => normalizeFragL g
          | none => []
        else d1
      let u1 :=
        match findParenUsr after with
        | some m => pyStripSet (fun c => c = '(' ∨ c = ')' ∨ c = ' ') m
        | none => []
      let userId :=
        if u1 = [] then
          match findUserIdKV after with
          | some g => g
          | none => []
        else u1
      let displayName :=
        if d2 = [] then
          let tmp := after
          let tmp :=
            if userId ≠ [] then
              subScan (literalCIMatch ('(' :: userId ++ [')'])) tmp.length tmp
            else tmp
          let tmp := subScan parenUsrMatch tmp.length tmp
          let tmp := subScan parenUserIdMatch tmp.length tmp
          let tmp := subScan (delimMatch '[' ']') tmp.length tmp
          let tmp := subScan (delimMatch (Char.ofNat 123) (Char.ofNat 125)) tmp.length tmp
          let tmp := subScan (delimMatch '<' '>') tmp.length tmp
          let tmp := collapsePipes tmp
          normalizeFragL tmp
        else d2
      let displayName :=
        if displayName = [] ∧ userId ≠ [] then userId else displayName
      let safeLine := pyStripL (collapsePipes (stripZeroWidthL line.data))
      some ⟨⟨displayName⟩, ⟨userId⟩, ⟨placeholder⟩, ⟨safeLine⟩⟩

/-! ### MD5, for `get_short_hash`

`get_short_hash(text)` is `hashlib.md5(text.encode("utf-8", "ignore")).hexdigest()[:8]`.
Machine words are `Nat` reduced modulo `2 ^ 32`. -/

/-- Reduce a `Nat` modulo `2 ^ 32`. -/
def m32 (x : Nat) : Nat := x % 4294967296

/-- The 32-bit left rotation of `x < 2 ^ 32` by `s ≤ 32` bits. -/
def rotl32 (x s : Nat) : Nat :=
  (x * 2 ^ s) % 4294967296 + x / 2 ^ (32 - s)

/-- The 32-bit complement of `x < 2 ^ 32`. -/
def not32 (x : Nat) : Nat := 4294967295 - x

/-- The MD5 sine-derived constant table `K`. -/
def md5K : List Nat := [
  0xd76aa478, 0xe8c7b756, 0x242070db, 0xc1bdceee, 0xf57c0faf, 0x4787c62a, 0xa8304613, 0xfd469501,
  0x698098d8, 0x8b44f7af, 0xffff5bb1, 0x895cd7be, 0x6b901122, 0xfd987193, 0xa679438e, 0x49b40821,
  0xf61e2562, 0xc040b340, 0x265e5a51, 0xe9b6c7aa, 0xd62f105d, 0x02441453, 0xd8a1e681, 0xe7d3fbc8,
  0x21e1cde6, 0xc33707d6, 0xf4d50d87, 0x455a14ed, 0xa9e3e905, 0xfcefa3f8, 0x676f02d9, 0x8d2a4c8a,
  0xfffa3942, 0x8771f681, 0x6d9d6122, 0xfde5380c, 0xa4beea44, 0x4bdecfa9, 0xf6bb4b60, 0xbebfbc70,
  0x289b7ec6, 0xeaa127fa, 0xd4ef3085, 0x04881d05, 0xd9d4d039, 0xe6db99e5, 0x1fa27cf8, 0xc4ac5665,
  0xf4292244, 0x432aff97, 0xab9423a7, 0xfc93a039, 0x655b59c3, 0x8f0ccc92, 0xffeff47d, 0x85845dd1,
  0x6fa87e4f, 0xfe2ce6e0, 0xa3014314, 0x4e0811a1, 0xf7537e82, 0xbd3af235, 0x2ad7d2bb, 0xeb86d391]

/-- The MD5 per-round shift table. -/
def md5S : List Nat := [
  7, 12, 17, 22, 7, 12, 17, 22, 7, 12, 17, 22, 7, 12, 17, 22,
  5, 9, 14, 20, 5, 9, 14, 20, 5, 9, 14, 20, 5, 9, 14, 20,
  4, 11, 16, 23, 4, 11, 16, 23, 4, 11, 16, 23, 4, 11, 16, 23,
  6, 10, 15, 21, 6, 10, 15, 21, 6, 10, 15, 21, 6, 10, 15, 21]

/-- One MD5 operation on the state `(a, b, c, d)` with the 16 message words `M`. -/
def md5Op (M : List Nat) (st : Nat × Nat × Nat × Nat) (i : Nat) :
    Nat × Nat × Nat × Nat :=
  let (a, b, c, d) := st
  let fg : Nat × Nat :=
    if i < 16 then (Nat.lor (Nat.land b c) (Nat.land (not32 b) d), i)
    else if i < 32 then (Nat.lor (Nat.land d b) (Nat.land (not32 d) c), (5 * i + 1) % 16)
    else if i < 48 then (Nat.xor (Nat.xor b c) d, (3 * i + 5) % 16)
    else (Nat.xor c (Nat.lor b (not32 d)), (7 * i) % 16)
  let f := m32 (fg.1 + a + md5K.getD i 0 + M.getD fg.2 0)
  (d, m32 (b + rotl32 f (md5S.getD i 0)), b, c)

/-- Interpret 4 consecutive bytes as a little-endian 32-bit word. -/
def leWord (bs : List Nat) (j : Nat) : Nat :=
  bs.getD (4 * j) 0 + 256 * bs.getD (4 * j + 1) 0 +
    65536 * bs.getD (4 * j + 2) 0 + 16777216 * bs.getD (4 * j + 3) 0

/-- Process one 64-byte MD5 block. -/
def md5Block (st : Nat × Nat × Nat × Nat) (block : List Nat) :
    Nat × Nat × Nat × Nat :=
  let M := (List.range 16).map (leWord block)
  let r := (List.range 64).foldl (md5Op M) st
  (m32 (st.1 + r.1), m32 (st.2.1 + r.2.1), m32 (st.2.2.1 + r.2.2.1),
    m32 (st.2.2.2 + r.2.2.2))

/-- Split a byte list into 64-byte chunks.  The fuel argument (instantiated
with the list length) only serves structural termination. -/
def chunks64 : Nat → List Nat → List (List Nat)
  | 0, _ => []
  | _, [] => []
  | fuel + 1, l => l.take 64 :: chunks64 fuel (l.drop 64)

/-- A `Nat` as `n` little-endian bytes. -/
def leBytes : Nat → Nat → List Nat
  | 0, _ => []
  | n + 1, x => x % 256 :: leBytes n (x / 256)

/-- MD5 padding: append `0x80`, zero-pad to 56 mod 64, then the 64-bit
little-endian bit length. -/
def md5Pad (msg : List Nat) : List Nat :=
  let padLen := (56 + 64 - (msg.length + 1) % 64) % 64
  msg ++ 0x80 :: List.replicate padLen 0 ++ leBytes 8 (8 * msg.length)

/-- The MD5 state after digesting `msg` (a list of bytes). -/
def md5Digest (msg : List Nat) : Nat × Nat × Nat × Nat :=
  let padded := md5Pad msg
  (chunks64 padded.length padded).foldl md5Block
    (0x67452301, 0xefcdab89, 0x98badcfe, 0x10325476)

/-- Lowercase hexadecimal digit. -/
def hexChar (n : Nat) : Char :=
  if n < 10 then Char.ofNat (48 + n) else Char.ofNat (87 + n)

/-- A byte as two lowercase hex characters. -/
def byteHex (b : Nat) : List Char :=
  [hexChar (b / 16), hexChar (b % 16)]

/-- Model of `hexdigest()` of an MD5 state: the four words serialised little-endian. -/
def md5Hex (st : Nat × Nat × Nat × Nat) : List Char :=
  ((leBytes 4 st.1 ++ leBytes 4 st.2.1 ++ leBytes 4 st.2.2.1 ++
    leBytes 4 st.2.2.2).map byteHex).flatten

/-- UTF-8 encoding of one scalar value (every `Char` is a valid scalar, so
the `"ignore"` error handler never fires). -/
def utf8Bytes (c : Char) : List Nat :=
  let n := c.toNat
  if n < 0x80 then [n]
  else if n < 0x800 then [0xC0 + n / 64, 0x80 + n % 64]
  else if n < 0x10000 then
    [0xE0 + n / 4096, 0x80 + n / 64 % 64, 0x80 + n % 64]
  else
    [0xF0 + n / 262144, 0x80 + n / 4096 % 64, 0x80 + n / 64 % 64, 0x80 + n % 64]

/-- Model of `get_short_hash`: the first 8 hex digits of the MD5 of the UTF-8 encoded
text, or the empty string for empty input. -/
def get_short_hash (text : String) : String :=
  if text = "" then ""
  else ⟨(md5Hex (md5Digest (text.data.flatMap utf8Bytes))).take 8⟩

/-! ### Log locator (`score_log_file`, `get_newest_log_path`)

The filesystem is modelled as an optional list of directory entries
(`none` = the directory is absent or unreadable); file timestamps
(`st_mtime` / `st_ctime`) are `Int` seconds. -/

/-- One directory entry as seen by `os.scandir`. -/
structure FsEntry where
  name : String
  isFile : Bool
  mtime : Int
  ctime : Int
deriving DecidableEq

/-- Gregorian leap year. -/
def isLeapYear (y : Nat) : Bool :=
  y % 4 = 0 ∧ (y % 100 ≠ 0 ∨ y % 400 = 0)

/-- Days in a month (`datetime` validation). -/
def daysInMonth (y m : Nat) : Nat :=
  if m = 2 then (if isLeapYear y then 29 else 28)
  else if m = 4 ∨ m = 6 ∨ m = 9 ∨ m = 11 then 30
  else 31

/-- The argument ranges accepted by `datetime(y, m, d, h, mi, s)`;
outside them the constructor raises `ValueError` and `score_log_file`
ignores the filename timestamp. -/
def datetimeValid (y m d h mi s : Nat) : Bool :=
  1 ≤ y ∧ y ≤ 9999 ∧ 1 ≤ m ∧ m ≤ 12 ∧ 1 ≤ d ∧ d ≤ daysInMonth y m ∧
    h ≤ 23 ∧ mi ≤ 59 ∧ s ≤ 59

/-- Days from 1970-01-01 to year `y`, month `m`, day `d`
(`1 ≤ m ≤ 12`; Hinnant's civil-date algorithm). -/
def civilDays (y m d : Nat) : Int :=
  let yAdj := if m ≤ 2 then y - 1 else y
  let era := yAdj / 400
  let yoe := yAdj - era * 400
  let mp := (m + 9) % 12
  let doy := (153 * mp + 2) / 5 + d - 1
  let doe := yoe * 365 + yoe / 4 - yoe / 100 + doy
  (era * 146097 + doe : Int) - 719468

/-- Model of `datetime(...).timestamp()` of a validated civil time, modelled as UTC
epoch seconds (the code interprets the naive datetime in the machine's local
zone; only monotonicity in the civil time matters here). -/
def civilTimestamp (y m d h mi s : Nat) : Int :=
  civilDays y m d * 86400 + (h * 3600 + mi * 60 + s : Nat)

/-- One position of the fixed-shape timestamp template: `#` matches a digit,
letters match case-insensitively, everything else matches itself. -/
def templateMatches : List Char → List Char → Bool
  | [], [] => true
  | '#' :: t, c :: s => c.isDigit && templateMatches t s
  | p :: t, c :: s => (p.toLower = c.toLower) && templateMatches t s
  | _, _ => false

/-- Digits of a numeric field read from a character list. -/
def digitsToNat (l : List Char) : Nat :=
  l.foldl (fun acc c => 10 * acc + (c.toNat - 48)) 0

/-- The timestamp parsed by
`re.search(r"output_log_(\d{4})-(\d{2})-(\d{2})_(\d{2})-(\d{2})-(\d{2})\.txt$", name, re.IGNORECASE)`
followed by `datetime(...)`: the pattern is anchored at the end of the
basename, so it matches exactly when the final 34 characters have the
rotation shape. -/
def parseRotationTimestamp (name : String) : Option Int :=
  let l := name.data
  if l.length < 34 then none
  else
    let tail34 := l.drop (l.length - 34)
    if templateMatches "output_log_####-##-##_##-##-##.txt".data tail34 then
      let ts := tail34.drop 11
      let y := digitsToNat (ts.take 4)
      let mo := digitsToNat ((ts.drop 5).take 2)
      let d := digitsToNat ((ts.drop 8).take 2)
      let hh := digitsToNat ((ts.drop 11).take 2)
      let mi := digitsToNat ((ts.drop 14).take 2)
      let ss := digitsToNat ((ts.drop 17).take 2)
      if datetimeValid y mo d hh mi ss then some (civilTimestamp y mo d hh mi ss)
      else none
    else none

/-- Model of `score_log_file`: the larger of mtime and ctime, further maximised
against the timestamp embedded in a rotation-pattern filename. -/
def score_log_file (e : FsEntry) : Int :=
  let best := max e.mtime e.ctime
  match parseRotationTimestamp e.name with
  | some t => max best t
  | none => best

/-- The candidate filter of `get_newest_log_path`: regular files whose
lowercased name is `player.log` or starts with `output_log_`. -/
def isCodeCandidate (e : FsEntry) : Bool :=
  e.isFile &&
    (lowerStr e.name = "player.log" ∨
      "output_log_".data.isPrefixOf (lowerStr e.name).data)

/-- Ordering used to model `candidates.sort(key=score_log_file, reverse=True)`
(descending and stable, matching Python's stable sort). -/
def newerFirst (a b : FsEntry) : Prop :=
  score_log_file b ≤ score_log_file a

instance : DecidableRel newerFirst := fun _ _ => Int.decLe _ _

instance : IsTotal FsEntry newerFirst :=
  ⟨fun a b => le_total (score_log_file b) (score_log_file a)⟩

instance : IsTrans FsEntry newerFirst :=
  ⟨fun _ _ _ h1 h2 => le_trans h2 h1⟩

/-- Model of `get_newest_log_path(log_dir)`: `none` for an absent directory, else the
first candidate of a stable descending sort by `score_log_file`
(`candidates[0]` after `sort(..., reverse=True)`). -/
def get_newest_log_path (dir : Option (List FsEntry)) : Option FsEntry :=
  match dir with
  | none => none
  | some entries =>
    let candidates := entries.filter isCodeCandidate
    if candidates.isEmpty then none
    else (List.insertionSort newerFirst candidates).head?

/-- The candidate set described by the specification's words for claim C7:
exactly the regular files whose name is the reserved filename or matches the
full timestamped-rotation pattern (fixed prefix + `YYYY-MM-DD_HH-MM-SS` +
fixed suffix, case-insensitive).  Stated from the spec, for comparison with
`isCodeCandidate`. -/
def claimedLogCandidate (e : FsEntry) : Bool :=
  e.isFile &&
    (lowerStr e.name = "player.log" ∨
      templateMatches "output_log_####-##-##_##-##-##.txt".data e.name.data)

/-! ### Session tracker

`SessionTracker`'s mutable attributes become a record; `datetime` values are
`Int` seconds; Python dicts (`seen_players`, `last_notified`) are
insertion-ordered association lists whose keys stay unique by construction.
The two notification sinks (`DesktopNotifier.send` / `PushoverClient.send`)
are modelled by the returned list of dispatched notifications; the diagnostic
logger has no observable effect on the tracked state and is omitted. -/

/-- Model of `APP_NAME`. -/
def APP_NAME : String := "VRChat Join Notifier"

/-- Model of `NOTIFY_COOLDOWN_SECONDS`. -/
def NOTIFY_COOLDOWN_SECONDS : Int := 10

/-- Model of `SESSION_FALLBACK_GRACE_SECONDS`. -/
def SESSION_FALLBACK_GRACE_SECONDS : Int := 30

/-- Model of `SESSION_FALLBACK_MAX_CONTINUATION_SECONDS`. -/
def SESSION_FALLBACK_MAX_CONTINUATION_SECONDS : Int := 4

/-- The `pending_room` dict (`{"world": ..., "instance": ..., "raw": ...}`). -/
structure RoomInfo where
  world : String
  instanceId : String
  raw : String
deriving DecidableEq

/-- The `pending_self_join` dict. -/
structure PendingSelf where
  sessionId : Nat
  placeholder : String
  timestamp : Int
deriving DecidableEq

/-- One dispatched notification (`notify_all` forwarding to both sinks). -/
structure Notif where
  key : String
  title : String
  message : String
deriving DecidableEq

/-- The mutable attributes of `SessionTracker`. -/
structure TrackerState where
  sessionId : Nat
  ready : Bool
  source : String
  seenPlayers : List (String × Int)
  pendingRoom : Option RoomInfo
  sessionStartedAt : Option Int
  sessionLastJoinAt : Option Int
  sessionLastJoinRaw : Option String
  lastNotified : List (String × Int)
  localUserId : Option String
  pendingSelfJoin : Option PendingSelf
deriving DecidableEq

/-- Model of `SessionTracker.__init__`. -/
def initialState : TrackerState :=
  ⟨0, false, "", [], none, none, none, none, [], none, none⟩

/-- Model of `dict.get`: the value stored under `k`, if any. -/
def lookupAssoc (l : List (String × Int)) (k : String) : Option Int :=
  match l with
  | [] => none
  | p :: rest => if p.1 = k then some p.2 else lookupAssoc rest k

/-- Model of `k in dict`. -/
def containsKey (l : List (String × Int)) (k : String) : Bool :=
  l.any (fun p => p.1 = k)

/-- Model of `dict[k] = v`: overwrite in place, or append a new key. -/
def updateAssoc (l : List (String × Int)) (k : String) (v : Int) :
    List (String × Int) :=
  match l with
  | [] => [(k, v)]
  | p :: rest => if p.1 = k then (k, v) :: rest else p :: updateAssoc rest k v

/-- Model of `max(self.seen_players.values())` over a non-empty dict. -/
def maxValues (l : List (String × Int)) : Option Int :=
  match l with
  | [] => none
  | p :: rest =>
    match maxValues rest with
    | none => some p.2
    | some m => some (max p.2 m)

/-- Model of `SessionTracker.reset_session_state`. -/
def resetSessionState (st : TrackerState) : TrackerState :=
  { st with
    ready := false
    source := ""
    seenPlayers := []
    sessionStartedAt := none
    sessionLastJoinAt := none
    sessionLastJoinRaw := none
    pendingRoom := none
    localUserId := none
    pendingSelfJoin := none }

/-- Model of `SessionTracker.ensure_session_ready(reason)`: open a new session when
none is open (incrementing `session_id` and clearing per-session state);
a no-op when a session is already open. -/
def ensureSessionReady (st : TrackerState) (reason : String) (now : Int) :
    TrackerState :=
  if st.ready then st
  else
    let reason := if pyStrip reason = "" then "unknown trigger" else reason
    { st with
      sessionId := st.sessionId + 1
      ready := true
      source := reason
      seenPlayers := []
      sessionStartedAt := some now
      sessionLastJoinAt := none
      sessionLastJoinRaw := none }

/-- Model of `SessionTracker.notify_all(key, title, message)`: suppress when a prior
send for the same key is within the 10-second cooldown, otherwise record the
timestamp and forward to both sinks. -/
def notify_all (st : TrackerState) (key title message : String) (now : Int) :
    TrackerState × List Notif :=
  match lookupAssoc st.lastNotified key with
  | some previous =>
    if now - previous < NOTIFY_COOLDOWN_SECONDS then (st, [])
    else
      ({ st with lastNotified := updateAssoc st.lastNotified key now },
        [⟨key, title, message⟩])
  | none =>
    ({ st with lastNotified := updateAssoc st.lastNotified key now },
      [⟨key, title, message⟩])

/-- Model of `SessionTracker.handle_log_switch(path)`: unconditional session reset. -/
def handle_log_switch (st : TrackerState) (_path : String) : TrackerState :=
  resetSessionState st

/-- Model of `SessionTracker.handle_room_enter(world, instance, raw_line)`. -/
def handle_room_enter (st : TrackerState) (world instanceId rawLine : String) :
    TrackerState :=
  { st with pendingRoom := some ⟨world, instanceId, rawLine⟩ }

/-- Model of `SessionTracker.handle_room_left()`. -/
def handle_room_left (st : TrackerState) : TrackerState :=
  resetSessionState st

/-- The fallback-confirmation decision of `handle_self_join`: reuse the open
fallback session when elapsed time since its start is under the 30-second
grace window and either no joins are tracked yet, or the gap since the last
tracked join is non-zero (Python truthiness of the `timedelta`) and at most
4 seconds. -/
def selfJoinReuse (st : TrackerState) (now : Int) : Bool :=
  if st.ready ∧ st.source = "OnPlayerJoined fallback" then
    match st.sessionStartedAt with
    | none => false
    | some startedAt =>
      if now - startedAt < SESSION_FALLBACK_GRACE_SECONDS then
        if st.seenPlayers.length = 0 then true
        else
          let lastJoin :=
            match st.sessionLastJoinAt with
            | some t => some t
            | none => maxValues st.seenPlayers
          match lastJoin with
          | none => false
          | some t =>
            let gap := now - t
            gap ≠ 0 ∧ gap ≤ SESSION_FALLBACK_MAX_CONTINUATION_SECONDS
      else false
  else false

/-- The `(parsed_name, parsed_user, parsed_placeholder)` triple extracted at
the end of `handle_self_join` (empty strings when the raw line is empty or
does not parse). -/
def selfJoinParsed (rawLine : String) : String × String × String :=
  match (if rawLine ≠ "" then parse_player_event_line rawLine "OnJoinedRoom" else none) with
  | some p => (normalize_join_name p.name, pyStrip p.userId,
      normalize_join_name p.placeholder)
  | none => ("", "", "")

/-- The `placeholder_label` computed by `handle_self_join` (defaults to
`Player`, and `you` is rewritten to `Player`). -/
def selfJoinPlaceholderLabel (parsedPlaceholder : String) : String :=
  let l := if parsedPlaceholder ≠ "" then parsedPlaceholder else "Player"
  if lowerStr l = "you" then "Player" else l

/-- The notification message built by `handle_self_join`. -/
def selfJoinMessage (parsedName parsedUser parsedPlaceholder : String) : String :=
  let displayName :=
    if parsedName ≠ "" then parsedName
    else if parsedUser ≠ "" then parsedUser else "You"
  let placeholderLabel := selfJoinPlaceholderLabel parsedPlaceholder
  let displayName :=
    if lowerStr displayName = "you" ∧ parsedName ≠ "" then parsedName else displayName
  let messageBase :=
    if displayName ≠ "" then displayName
    else if placeholderLabel ≠ "" then placeholderLabel else "You"
  let messageBase :=
    if placeholderLabel ≠ "" then
      if messageBase = "" then placeholderLabel
      else messageBase ++ "(" ++ placeholderLabel ++ ")"
    else messageBase
  messageBase ++ " joined your instance."

/-- The tail of `handle_self_join` after the session has been chosen:
parse the raw line with the `OnJoinedRoom` token, learn the local user id,
dispatch the self notification and record `pending_self_join`. -/
def selfJoinTail (st : TrackerState) (rawLine : String) (now : Int) :
    TrackerState × List Notif :=
  let info := selfJoinParsed rawLine
  let st :=
    if info.2.1 ≠ "" ∧ st.localUserId ≠ some (lowerStr info.2.1) then
      { st with localUserId := some (lowerStr info.2.1) }
    else st
  let message := selfJoinMessage info.1 info.2.1 info.2.2
  let key := "self:" ++ Nat.repr st.sessionId
  let r := notify_all st key APP_NAME message now
  let ps := some (PendingSelf.mk r.1.sessionId (selfJoinPlaceholderLabel info.2.2) now)
  ({ r.1 with pendingSelfJoin := ps }, r.2)

/-- Model of `SessionTracker.handle_self_join(raw_line)`: ignore when the game is not
running; otherwise either re-tag the open fallback session to
`OnJoinedRoom` in place, or reset (preserving `pending_room`) and open a
fresh `OnJoinedRoom` session, then notify. -/
def handle_self_join (running : Bool) (st : TrackerState) (rawLine : String)
    (now : Int) : TrackerState × List Notif :=
  if ¬ running then (st, [])
  else
    let st1 :=
      if selfJoinReuse st now then { st with source := "OnJoinedRoom" }
      else
        let pending := st.pendingRoom
        let st' := resetSessionState st
        let st' := { st' with pendingRoom := pending }
        ensureSessionReady st' "OnJoinedRoom" now
    selfJoinTail st1 rawLine now

/-- The join key built for a `PlayerJoin` event:
`join:<sessionId>:<userId-or-lowercased-name>[:<shortHash>]`. -/
def joinKeyOf (sessionId : Nat) (keyBase : String) (hashSuffix : String) : String :=
  "join:" ++ Nat.repr sessionId ++ ":" ++ keyBase ++
    (if hashSuffix ≠ "" then ":" ++ hashSuffix else "")

/-- The notification message built by `handle_player_join` for a fresh join
(`placeholder_for_message` defaulting and the `name(placeholder)` form). -/
def joinMessage (cleanedName cleanedPlaceholder originalName : String)
    (wasPlaceholder : Bool) : String :=
  let placeholderForMessage := cleanedPlaceholder
  let placeholderForMessage :=
    if placeholderForMessage = "" ∧ wasPlaceholder then originalName
    else placeholderForMessage
  let placeholderForMessage :=
    if placeholderForMessage = "" then "Someone"
    else if lowerStr placeholderForMessage = "you" then "Player"
    else placeholderForMessage
  let messageName :=
    if cleanedName ≠ "" then cleanedName ++ "(" ++ placeholderForMessage ++ ")"
    else placeholderForMessage
  messageName ++ " joined your instance."

/-- The `pending_self_join` consumption test of `handle_player_join`: the
pending record belongs to the current session, is younger than 10 seconds,
carries a `player`/`you` placeholder, and the event's placeholder class
matches it. -/
def pendingHitCheck (st : TrackerState) (cleanedPlaceholder originalName : String)
    (now : Int) : Bool :=
  match st.pendingSelfJoin with
  | none => false
  | some ps =>
    if ps.sessionId = st.sessionId then
      let pendingLower := lowerStr (normalize_join_name ps.placeholder)
      let evPh := lowerStr cleanedPlaceholder
      let evPh :=
        if evPh = "" ∧ is_placeholder_name originalName then lowerStr originalName
        else evPh
      let ageOk := now - ps.timestamp < 10
      ageOk ∧ (pendingLower = "player" ∨ pendingLower = "you") ∧
        (pendingLower = evPh ∨ (evPh = "" ∧ is_placeholder_name originalName))
    else false

/-- The name-fixup block of `handle_player_join`: an empty or
placeholder-shaped name is replaced by the user id when one is present. -/
def joinNameFixup (cleanedName cleanedUser : String) (wasPlaceholder : Bool) :
    String × Bool :=
  if cleanedName = "" ∧ cleanedUser ≠ "" then (cleanedUser, false)
  else if wasPlaceholder ∧ cleanedUser ≠ "" then (cleanedUser, false)
  else (cleanedName, wasPlaceholder)

/-- The resolved display name of a join (`cleaned_name` after the fixup
block, defaulting to the `Unknown VRChat user` literal) together with the
final `was_placeholder` flag. -/
def joinFinalName (cleanedName cleanedUser : String) : String × Bool :=
  (if (joinNameFixup cleanedName cleanedUser (is_placeholder_name cleanedName)).1 = ""
    then "Unknown VRChat user"
    else (joinNameFixup cleanedName cleanedUser (is_placeholder_name cleanedName)).1,
   (joinNameFixup cleanedName cleanedUser (is_placeholder_name cleanedName)).2)

/-- Model of `key_base`: the user key when present, otherwise the lowercased name. -/
def joinKeyBase (userKey finalName : String) : String :=
  if userKey ≠ "" then userKey else lowerStr finalName

/-- Model of `hash_suffix`: the short raw-line hash, only when no user id is present. -/
def joinHashSuffix (cleanedUser rawLine : String) : String :=
  if cleanedUser = "" ∧ rawLine ≠ "" then get_short_hash rawLine else ""

/-- The final dedup-and-notify step of `handle_player_join`: a key already in
`seen_players` is a no-op, otherwise the join is recorded and notified. -/
def joinFinish (st : TrackerState) (joinKey message : String) (now : Int) :
    TrackerState × List Notif :=
  if containsKey st.seenPlayers joinKey then (st, [])
  else
    notify_all { st with seenPlayers := st.seenPlayers ++ [(joinKey, now)] }
      joinKey APP_NAME message now

/-- The decision chain of `handle_player_join` after name cleaning (the
parameters carry the source's `cleaned_name`, `cleaned_placeholder`,
`cleaned_user` and `user_key` local variables): local-user suppression,
pending self-join consumption, placeholder learning, then dedup keying and
notification. -/
def playerJoinSteps (st : TrackerState)
    (cleanedName cleanedPlaceholder cleanedUser userKey rawLine : String)
    (now : Int) : TrackerState × List Notif :=
  if userKey ≠ "" ∧ st.localUserId = some userKey then
    ({ st with pendingSelfJoin := none }, [])
  else if pendingHitCheck st cleanedPlaceholder cleanedName now then
    if userKey ≠ "" ∧ st.localUserId = none then
      ({ st with localUserId := some userKey, pendingSelfJoin := none }, [])
    else ({ st with pendingSelfJoin := none }, [])
  else if is_placeholder_name cleanedName ∧ userKey ≠ "" ∧
      st.source = "OnPlayerJoined fallback" ∧ st.localUserId = none then
    ({ st with localUserId := some userKey, pendingSelfJoin := none }, [])
  else if is_placeholder_name cleanedName ∧ userKey ≠ "" ∧
      st.localUserId = some userKey then
    ({ st with pendingSelfJoin := none }, [])
  else
    joinFinish st
      (joinKeyOf st.sessionId
        (joinKeyBase userKey (joinFinalName cleanedName cleanedUser).1)
        (joinHashSuffix cleanedUser rawLine))
      (joinMessage (joinFinalName cleanedName cleanedUser).1 cleanedPlaceholder
        cleanedName (joinFinalName cleanedName cleanedUser).2) now

/-- The body of `handle_player_join` once a session is open (the code after
the `ensure_session_ready` fallback): record the join time, clean the event
fields and run the decision chain. -/
def playerJoinCore (st : TrackerState) (name userId rawLine placeholder : String)
    (now : Int) : TrackerState × List Notif :=
  playerJoinSteps
    { st with sessionLastJoinAt := some now, sessionLastJoinRaw := some rawLine }
    (normalize_join_name name) (normalize_join_name placeholder) (pyStrip userId)
    (if pyStrip userId ≠ "" then lowerStr (pyStrip userId) else "")
    rawLine now

/-- Model of `SessionTracker.handle_player_join(name, user_id, raw_line, placeholder)`:
ignore when the game is not running; open a fallback session when none is
open; then run the join body. -/
def handle_player_join (running : Bool) (st : TrackerState)
    (name userId rawLine placeholder : String) (now : Int) :
    TrackerState × List Notif :=
  if ¬ running then (st, [])
  else
    let st := if ¬ st.ready then ensureSessionReady st "OnPlayerJoined fallback" now else st
    if ¬ st.ready then (st, [])
    else playerJoinCore st name userId rawLine placeholder now

/-- The removal loop of `handle_player_left`: drop every `seen_players`
entry whose key starts with the given join-key prefix
(`key.startswith(prefix)` over the collected keys). -/
def removeUserKeys (l : List (String × Int)) (keyStart : String) :
    List (String × Int) :=
  l.filter (fun p => ¬ keyStart.data.isPrefixOf p.1.data)

/-- Model of `SessionTracker.handle_player_left(name, user_id, raw_line)`:
learn the local user id from a placeholder-named leave, then remove every
`seen_players` entry whose key starts with this session's join-key prefix
for the user id.  The function never dispatches a notification and, unlike
the join and self-join handlers, never consults the process-presence check. -/
def handle_player_left (st : TrackerState) (name userId _rawLine : String) :
    TrackerState × List Notif :=
  let cleanedName := normalize_join_name name
  let cleanedUser := pyStrip userId
  let userKey := if cleanedUser ≠ "" then lowerStr cleanedUser else ""
  let isPh := is_placeholder_name cleanedName
  let st :=
    if isPh ∧ userKey ≠ "" ∧ st.localUserId = none then
      { st with localUserId := some userKey }
    else st
  let st :=
    if userKey ≠ "" then
      { st with seenPlayers := (removeUserKeys st.seenPlayers
          ("join:" ++ Nat.repr st.sessionId ++ ":" ++ userKey)) }
    else st
  (st, [])

/-- A classified event as dispatched by `AppController._handle_event`.
Events that reach a handler consulting `is_vrchat_running` carry the result
of that check (`running`); the dispatcher calls `handle_player_left`
unconditionally, so its `running` field is ignored by `stepEvent`. -/
inductive Ev where
  | logSwitch (path : String)
  | roomEnter (world instanceId rawLine : String)
  | roomLeft
  | selfJoin (running : Bool) (rawLine : String) (now : Int)
  | playerJoin (running : Bool) (name userId rawLine placeholder : String) (now : Int)
  | playerLeft (running : Bool) (name userId rawLine : String)

/-- One dispatcher step (`AppController._handle_event`), dropping the
dispatched notifications. -/
def stepEvent (st : TrackerState) : Ev → TrackerState
  | .logSwitch p => handle_log_switch st p
  | .roomEnter w i r => handle_room_enter st w i r
  | .roomLeft => handle_room_left st
  | .selfJoin run raw now => (handle_self_join run st raw now).1
  | .playerJoin run n u r ph now => (handle_player_join run st n u r ph now).1
  | .playerLeft _run n u r => (handle_player_left st n u r).1

/-- A whole event sequence. -/
def runEvents (st : TrackerState) (evs : List Ev) : TrackerState :=
  evs.foldl stepEvent st

/-! ### Helper lemmas -/

theorem lookupAssoc_updateAssoc (l : List (String × Int)) (k : String) (v : Int) :
    lookupAssoc (updateAssoc l k v) k = some v := by
  induction l with
  | nil => simp [updateAssoc, lookupAssoc]
  | cons p rest ih =>
    by_cases h : p.1 = k <;> simp [updateAssoc, lookupAssoc, h, ih]

/-- The tail `selfJoinTail` only touches `localUserId`, `lastNotified` and
`pendingSelfJoin`. -/
theorem selfJoinTail_shape (st : TrackerState) (raw : String) (now : Int) :
    ∃ lu ln ps, (selfJoinTail st raw now).1 =
      { st with localUserId := lu, lastNotified := ln, pendingSelfJoin := ps } := by
  simp only [selfJoinTail, notify_all]
  repeat' split
  all_goals exact ⟨_, _, _, rfl⟩

/-- The handler `handle_player_left` only touches `localUserId` and `seenPlayers`. -/
theorem handle_player_left_shape (st : TrackerState) (name userId rawLine : String) :
    ∃ lu sp, (handle_player_left st name userId rawLine).1 =
      { st with localUserId := lu, seenPlayers := sp } := by
  simp only [handle_player_left]
  repeat' split
  all_goals exact ⟨_, _, rfl⟩

/-- The step `joinFinish` only touches `seenPlayers` and `lastNotified`. -/
theorem joinFinish_shape (st : TrackerState) (joinKey message : String) (now : Int) :
    ∃ sp ln, (joinFinish st joinKey message now).1 =
      { st with seenPlayers := sp, lastNotified := ln } := by
  simp only [joinFinish, notify_all]
  repeat' split
  all_goals exact ⟨_, _, rfl⟩

/-- The chain `playerJoinSteps` only touches `localUserId`, `pendingSelfJoin`,
`seenPlayers` and `lastNotified`. -/
theorem playerJoinSteps_shape (st : TrackerState)
    (cleanedName cleanedPlaceholder cleanedUser userKey rawLine : String)
    (now : Int) :
    ∃ lu ps sp ln, (playerJoinSteps st cleanedName cleanedPlaceholder cleanedUser
        userKey rawLine now).1 =
      { st with
        localUserId := lu
        pendingSelfJoin := ps
        seenPlayers := sp
        lastNotified := ln } := by
  unfold playerJoinSteps
  repeat' split
  all_goals
    first
      | exact ⟨_, _, _, _, rfl⟩
      | (obtain ⟨sp, ln, h⟩ := joinFinish_shape st _ _ now
         rw [h]
         exact ⟨_, _, _, _, rfl⟩)

/-- The body `playerJoinCore` never touches `sessionId`, `ready`, `source`,
`sessionStartedAt` or `pendingRoom`. -/
theorem playerJoinCore_shape (st : TrackerState) (name userId rawLine ph : String)
    (now : Int) :
    ∃ sj sr lu ps sp ln, (playerJoinCore st name userId rawLine ph now).1 =
      { st with
        sessionLastJoinAt := sj
        sessionLastJoinRaw := sr
        localUserId := lu
        pendingSelfJoin := ps
        seenPlayers := sp
        lastNotified := ln } := by
  obtain ⟨lu, ps, sp, ln, h⟩ := playerJoinSteps_shape
    { st with sessionLastJoinAt := some now, sessionLastJoinRaw := some rawLine }
    (normalize_join_name name) (normalize_join_name ph) (pyStrip userId)
    (if pyStrip userId ≠ "" then lowerStr (pyStrip userId) else "") rawLine now
  exact ⟨some now, some rawLine, lu, ps, sp, ln, h⟩

/-- The dispatcher `notify_all` only touches `lastNotified`. -/
theorem notify_all_shape (st : TrackerState) (key title message : String) (now : Int) :
    ∃ ln, (notify_all st key title message now).1 = { st with lastNotified := ln } := by
  simp only [notify_all]
  repeat' split
  all_goals exact ⟨_, rfl⟩

/-- The dispatcher `notify_all` on a fresh key records the timestamp and dispatches. -/
theorem notify_all_fresh (st : TrackerState) (key title message : String) (now : Int)
    (hfresh : lookupAssoc st.lastNotified key = none) :
    notify_all st key title message now =
      ({ st with lastNotified := updateAssoc st.lastNotified key now },
        [⟨key, title, message⟩]) := by
  simp [notify_all, hfresh]

/-! ### Claims C2, C5, C6, C8, C10 -/

/-- A state with a learned-nothing tracker, an open session and one tracked
join, used to exhibit the missing liveness guard of `handle_player_left`. -/
def stC2 : TrackerState :=
  { initialState with
    sessionId := 1
    ready := true
    source := "OnJoinedRoom"
    sessionStartedAt := some 0
    seenPlayers := [("join:1:usr_9", 5)] }

/-- Claim C2 counterexample: a player-leave event processed while the game is
not detected as running still mutates session state — `handle_player_left`
never consults the process-presence check, so it learns `localUserId` from a
placeholder-named leave and clears `seenPlayers` entries. -/
theorem C2_counterexample :
    (stepEvent stC2 (Ev.playerLeft false "Player" "usr_9" "x")).localUserId =
        some "usr_9" ∧
    (stepEvent stC2 (Ev.playerLeft false "Player" "usr_9" "x")).seenPlayers = [] ∧
    stC2.localUserId = none ∧ stC2.seenPlayers ≠ [] := by
  refine ⟨rfl, rfl, rfl, ?_⟩
  decide

/-- Claim C2 (amended): player-join and self-join events handled while the
game process is not detected as running are ignored — the state is returned
unchanged and nothing is dispatched; the player-leave handler does not
consult the process check at all (it never notifies, but may mutate
`seenPlayers` and `localUserId`). -/
theorem C2_liveness_guard (st : TrackerState) (rawLine name userId ph : String)
    (now : Int) :
    handle_self_join false st rawLine now = (st, []) ∧
    handle_player_join false st name userId rawLine ph now = (st, []) :=
  ⟨rfl, rfl⟩

/-- Claim C5: two `notify_all` calls with the same fresh key dispatch once
then suppress when made within 10 seconds of each other, and dispatch twice
when made 11 seconds apart. -/
theorem C5_notify_cooldown (st : TrackerState) (key title1 msg1 title2 msg2 : String)
    (t0 t1 : Int) (hfresh : lookupAssoc st.lastNotified key = none) :
    (notify_all st key title1 msg1 t0).2.length = 1 ∧
    (t1 - t0 < 10 →
      (notify_all (notify_all st key title1 msg1 t0).1 key title2 msg2 t1).2.length = 0) ∧
    (t1 - t0 = 11 →
      (notify_all (notify_all st key title1 msg1 t0).1 key title2 msg2 t1).2.length = 1) := by
  rw [notify_all_fresh st key title1 msg1 t0 hfresh]
  have h2 : lookupAssoc (updateAssoc st.lastNotified key t0) key = some t0 :=
    lookupAssoc_updateAssoc _ _ _
  refine ⟨rfl, ?_, ?_⟩
  · intro hlt
    simp [notify_all, h2, NOTIFY_COOLDOWN_SECONDS, hlt]
  · intro heq
    have hge : ¬ (t1 - t0 < 10) := by omega
    simp [notify_all, h2, NOTIFY_COOLDOWN_SECONDS, hge]

/-- Claim C5 witness: with a fresh key, a second call 5 seconds later is
suppressed while a second call 11 seconds later dispatches. -/
theorem C5_witness :
    (notify_all (notify_all initialState "k" "t" "m" 0).1 "k" "t" "m" 5).2.length = 0 ∧
    (notify_all (notify_all initialState "k" "t" "m" 0).1 "k" "t" "m" 11).2.length = 1 :=
  ⟨(C5_notify_cooldown initialState "k" "t" "m" "t" "m" 0 5 rfl).2.1 (by norm_num),
   (C5_notify_cooldown initialState "k" "t" "m" "t" "m" 0 11 rfl).2.2 (by norm_num)⟩

/-- Claim C10: a suppressed `notify_all` call leaves the state (in particular
the cooldown table) unchanged, so calls at `t0`, `t0 + 9` and `t0 + 18`
dispatch, suppress, and dispatch again. -/
theorem C10_suppressed_keeps_table (st : TrackerState) (key title msg : String)
    (t0 : Int) (hfresh : lookupAssoc st.lastNotified key = none) :
    (notify_all st key title msg t0).2.length = 1 ∧
    (notify_all (notify_all st key title msg t0).1 key title msg (t0 + 9)).2 = [] ∧
    (notify_all (notify_all st key title msg t0).1 key title msg (t0 + 9)).1 =
      (notify_all st key title msg t0).1 ∧
    (notify_all (notify_all (notify_all st key title msg t0).1 key title msg (t0 + 9)).1
        key title msg (t0 + 18)).2.length = 1 := by
  rw [notify_all_fresh st key title msg t0 hfresh]
  have h2 : lookupAssoc (updateAssoc st.lastNotified key t0) key = some t0 :=
    lookupAssoc_updateAssoc _ _ _
  have h9 : t0 + 9 - t0 < 10 := by omega
  have h18 : ¬ (t0 + 18 - t0 < 10) := by omega
  have hsup : notify_all { st with lastNotified := updateAssoc st.lastNotified key t0 }
      key title msg (t0 + 9) =
      ({ st with lastNotified := updateAssoc st.lastNotified key t0 }, []) := by
    simp [notify_all, h2, NOTIFY_COOLDOWN_SECONDS, h9]
  rw [hsup]
  refine ⟨rfl, rfl, rfl, ?_⟩
  simp [notify_all, h2, NOTIFY_COOLDOWN_SECONDS, h18]

/-- Claim C10 witness at `t0 = 3` on the initial state. -/
theorem C10_witness :
    (notify_all initialState "k" "t" "m" 3).2.length = 1 ∧
    (notify_all (notify_all initialState "k" "t" "m" 3).1 "k" "t" "m" (3 + 9)).2 = [] ∧
    (notify_all (notify_all initialState "k" "t" "m" 3).1 "k" "t" "m" (3 + 9)).1 =
      (notify_all initialState "k" "t" "m" 3).1 ∧
    (notify_all (notify_all (notify_all initialState "k" "t" "m" 3).1 "k" "t" "m" (3 + 9)).1
        "k" "t" "m" (3 + 18)).2.length = 1 :=
  C10_suppressed_keeps_table initialState "k" "t" "m" 3 rfl

/-- A state with a recorded pending room fact, for claim C6. -/
def stC6 : TrackerState :=
  { initialState with pendingRoom := some ⟨"wrld_abc", "1", "raw"⟩ }

/-- Claim C6 counterexample: a session reset caused by a log-file switch does
not carry `pendingRoom` across — `handle_log_switch` calls
`reset_session_state`, which clears it. -/
theorem C6_counterexample :
    stC6.pendingRoom ≠ none ∧ (handle_log_switch stC6 "path").pendingRoom = none := by
  refine ⟨?_, rfl⟩
  decide

/-- Claim C6 (amended): both the log-switch reset and the room-left reset
clear `pendingRoom`; the fact is carried across only the reset performed
inside self-join handling, which saves and restores it. -/
theorem C6_pending_room (st : TrackerState) (path rawLine : String) (now : Int) :
    (handle_log_switch st path).pendingRoom = none ∧
    (handle_room_left st).pendingRoom = none ∧
    (handle_self_join true st rawLine now).1.pendingRoom = st.pendingRoom := by
  refine ⟨rfl, rfl, ?_⟩
  simp only [handle_self_join]
  norm_num
  split
  · obtain ⟨lu, ln, ps, h⟩ := selfJoinTail_shape { st with source := "OnJoinedRoom" }
      rawLine now
    rw [h]
  · obtain ⟨lu, ln, ps, h⟩ := selfJoinTail_shape (ensureSessionReady
      { resetSessionState st with pendingRoom := st.pendingRoom } "OnJoinedRoom" now)
      rawLine now
    rw [h]
    simp [ensureSessionReady, resetSessionState]

/-- Claim C8 counterexample: on the scenario line the parser's name field is
`"Alice (usr_1234"`, not `"Alice"` — the `displayName` capture group
`[^,\]\)]+` runs up to the closing parenthesis and keeps the opening one. -/
theorem C8_counterexample :
    (parse_player_event_line "[Behaviour] OnPlayerJoined displayName: Alice (usr_1234)"
        "OnPlayerJoined").map PlayerEventMatch.name = some "Alice (usr_1234" ∧
    ("Alice (usr_1234" : String) ≠ "Alice" := by
  refine ⟨rfl, ?_⟩
  decide

/-- Claim C8 (amended): the scenario line parses to a match with name
`"Alice (usr_1234"`, user id `"usr_1234"`, empty placeholder, and the line
itself as the raw line. -/
theorem C8_parse_scenario :
    parse_player_event_line "[Behaviour] OnPlayerJoined displayName: Alice (usr_1234)"
        "OnPlayerJoined" =
      some ⟨"Alice (usr_1234", "usr_1234", "",
        "[Behaviour] OnPlayerJoined displayName: Alice (usr_1234)"⟩ := rfl

/-! ### Claim C9: session-id monotonicity and `seenPlayers` clearing -/

/-- The handler `ensure_session_ready` on a closed session opens a new one. -/
theorem ensureSessionReady_not_ready (st : TrackerState) (reason : String) (now : Int)
    (h : st.ready = false) :
    ensureSessionReady st reason now =
      { st with
        sessionId := st.sessionId + 1
        ready := true
        source := if pyStrip reason = "" then "unknown trigger" else reason
        seenPlayers := []
        sessionStartedAt := some now
        sessionLastJoinAt := none
        sessionLastJoinRaw := none } := by
  simp [ensureSessionReady, h]

/-- The handler `ensure_session_ready` is a no-op on an open session. -/
theorem ensureSessionReady_ready (st : TrackerState) (reason : String) (now : Int)
    (h : st.ready = true) :
    ensureSessionReady st reason now = st := by
  simp [ensureSessionReady, h]

theorem selfJoinTail_sessionId (st : TrackerState) (raw : String) (now : Int) :
    (selfJoinTail st raw now).1.sessionId = st.sessionId := by
  obtain ⟨lu, ln, ps, h⟩ := selfJoinTail_shape st raw now
  rw [h]

theorem playerJoinCore_sessionId (st : TrackerState) (name userId rawLine ph : String)
    (now : Int) :
    (playerJoinCore st name userId rawLine ph now).1.sessionId = st.sessionId := by
  obtain ⟨sj, sr, lu, ps, sp, ln, h⟩ := playerJoinCore_shape st name userId rawLine ph now
  rw [h]

theorem handle_player_left_sessionId (st : TrackerState) (name userId rawLine : String) :
    (handle_player_left st name userId rawLine).1.sessionId = st.sessionId := by
  obtain ⟨lu, sp, h⟩ := handle_player_left_shape st name userId rawLine
  rw [h]

/-- No dispatcher step ever decreases the session id. -/
theorem stepEvent_sessionId_le (st : TrackerState) (ev : Ev) :
    st.sessionId ≤ (stepEvent st ev).sessionId := by
  cases ev with
  | logSwitch p => exact le_refl _
  | roomEnter w i r => exact le_refl _
  | roomLeft => exact le_refl _
  | playerLeft run n u r =>
    simp only [stepEvent, handle_player_left_sessionId, le_refl]
  | selfJoin run raw now =>
    cases run with
    | false => exact le_refl _
    | true =>
      simp only [stepEvent, handle_self_join, not_true, if_false]
      split
      · rw [selfJoinTail_sessionId]
      · rw [selfJoinTail_sessionId,
          ensureSessionReady_not_ready _ _ _ rfl]
        exact Nat.le_succ _
  | playerJoin run n u r ph now =>
    cases run with
    | false => exact le_refl _
    | true =>
      simp only [stepEvent, handle_player_join, not_true, if_false]
      cases hready : st.ready with
      | true => simp [hready, playerJoinCore_sessionId]
      | false =>
        rw [ensureSessionReady_not_ready _ _ _ hready]
        simp [playerJoinCore_sessionId]

/-- Session-id monotonicity over whole event sequences. -/
theorem runEvents_sessionId_le (st : TrackerState) (evs : List Ev) :
    st.sessionId ≤ (runEvents st evs).sessionId := by
  induction evs generalizing st with
  | nil => exact le_refl _
  | cons e t ih =>
    exact le_trans (stepEvent_sessionId_le st e) (ih (stepEvent st e))

/-- Claim C9: across every sequence of tracker operations the session id
never decreases; a session reset keeps the session id and clears
`seenPlayers` entirely; opening a new session increments the session id by
one and clears `seenPlayers`; and `ensure_session_ready` leaves an already
open session untouched (the id is incremented only when a session opens). -/
theorem C9_session_invariant (st : TrackerState) (evs : List Ev) (reason : String)
    (now : Int) :
    st.sessionId ≤ (runEvents st evs).sessionId ∧
    (resetSessionState st).seenPlayers = [] ∧
    (resetSessionState st).sessionId = st.sessionId ∧
    (st.ready = false →
      (ensureSessionReady st reason now).seenPlayers = [] ∧
      (ensureSessionReady st reason now).sessionId = st.sessionId + 1) ∧
    (st.ready = true → ensureSessionReady st reason now = st) := by
  refine ⟨runEvents_sessionId_le st evs, rfl, rfl, ?_, ?_⟩
  · intro h
    rw [ensureSessionReady_not_ready st reason now h]
    exact ⟨rfl, rfl⟩
  · intro h
    exact ensureSessionReady_ready st reason now h

/-- Claim C9 witness: a join then a room-left on the fresh tracker, and a
session opening on the fresh tracker. -/
theorem C9_witness :
    initialState.sessionId ≤ (runEvents initialState
      [Ev.playerJoin true "Bob" "usr_9" "r" "" 5, Ev.roomLeft]).sessionId ∧
    (ensureSessionReady initialState "x" 0).seenPlayers = [] ∧
    (ensureSessionReady initialState "x" 0).sessionId = initialState.sessionId + 1 := by
  have h := C9_session_invariant initialState
    [Ev.playerJoin true "Bob" "usr_9" "r" "" 5, Ev.roomLeft] "x" 0
  exact ⟨h.1, (h.2.2.2.1 rfl).1, (h.2.2.2.1 rfl).2⟩

/-! ### Claim C1: fallback confirmation -/

theorem selfJoinTail_source (st : TrackerState) (raw : String) (now : Int) :
    (selfJoinTail st raw now).1.source = st.source := by
  obtain ⟨lu, ln, ps, h⟩ := selfJoinTail_shape st raw now
  rw [h]

theorem selfJoinTail_seenPlayers (st : TrackerState) (raw : String) (now : Int) :
    (selfJoinTail st raw now).1.seenPlayers = st.seenPlayers := by
  obtain ⟨lu, ln, ps, h⟩ := selfJoinTail_shape st raw now
  rw [h]

theorem selfJoinTail_startedAt (st : TrackerState) (raw : String) (now : Int) :
    (selfJoinTail st raw now).1.sessionStartedAt = st.sessionStartedAt := by
  obtain ⟨lu, ln, ps, h⟩ := selfJoinTail_shape st raw now
  rw [h]

theorem selfJoinTail_lastJoinAt (st : TrackerState) (raw : String) (now : Int) :
    (selfJoinTail st raw now).1.sessionLastJoinAt = st.sessionLastJoinAt := by
  obtain ⟨lu, ln, ps, h⟩ := selfJoinTail_shape st raw now
  rw [h]

theorem selfJoinTail_ready (st : TrackerState) (raw : String) (now : Int) :
    (selfJoinTail st raw now).1.ready = st.ready := by
  obtain ⟨lu, ln, ps, h⟩ := selfJoinTail_shape st raw now
  rw [h]

/-- Claim C1: with the game running and an open fallback session started at
`T` whose single tracked join is at `T + 2`, a self-join at `T + 5` keeps the
session id and re-tags the source to `OnJoinedRoom` in place, preserving
`seenPlayers` and the session timers; a self-join at `T + 40` instead resets
and opens a new session with a strictly larger session id. -/
theorem C1_fallback_confirmation (st : TrackerState) (T : Int) (k raw : String)
    (hready : st.ready = true)
    (hsource : st.source = "OnPlayerJoined fallback")
    (hstart : st.sessionStartedAt = some T)
    (hseen : st.seenPlayers = [(k, T + 2)])
    (hlast : st.sessionLastJoinAt = some (T + 2)) :
    ((handle_self_join true st raw (T + 5)).1.sessionId = st.sessionId ∧
     (handle_self_join true st raw (T + 5)).1.source = "OnJoinedRoom" ∧
     (handle_self_join true st raw (T + 5)).1.seenPlayers = st.seenPlayers ∧
     (handle_self_join true st raw (T + 5)).1.sessionStartedAt = st.sessionStartedAt ∧
     (handle_self_join true st raw (T + 5)).1.sessionLastJoinAt = st.sessionLastJoinAt) ∧
    ((handle_self_join true st raw (T + 40)).1.sessionId = st.sessionId + 1 ∧
     st.sessionId < (handle_self_join true st raw (T + 40)).1.sessionId ∧
     (handle_self_join true st raw (T + 40)).1.source = "OnJoinedRoom" ∧
     (handle_self_join true st raw (T + 40)).1.ready = true ∧
     (handle_self_join true st raw (T + 40)).1.seenPlayers = []) := by
  have e5 : T + 5 - T = (5 : Int) := by ring
  have e3 : T + 5 - (T + 2) = (3 : Int) := by ring
  have e40 : T + 40 - T = (40 : Int) := by ring
  have hreuse : selfJoinReuse st (T + 5) = true := by
    simp only [selfJoinReuse, hready, hsource, hstart, hseen, hlast,
      SESSION_FALLBACK_GRACE_SECONDS, SESSION_FALLBACK_MAX_CONTINUATION_SECONDS, e5, e3]
    norm_num
  have hnoreuse : selfJoinReuse st (T + 40) = false := by
    simp only [selfJoinReuse, hready, hsource, hstart,
      SESSION_FALLBACK_GRACE_SECONDS, e40]
    norm_num
  have hd5 : handle_self_join true st raw (T + 5) =
      selfJoinTail { st with source := "OnJoinedRoom" } raw (T + 5) := by
    simp [handle_self_join, hreuse]
  have hd40 : handle_self_join true st raw (T + 40) =
      selfJoinTail (ensureSessionReady
        { resetSessionState st with pendingRoom := st.pendingRoom } "OnJoinedRoom"
        (T + 40)) raw (T + 40) := by
    simp [handle_self_join, hnoreuse]
  have hens : ensureSessionReady
      { resetSessionState st with pendingRoom := st.pendingRoom } "OnJoinedRoom"
      (T + 40) =
      { resetSessionState st with
        pendingRoom := st.pendingRoom
        sessionId := st.sessionId + 1
        ready := true
        source := "OnJoinedRoom"
        seenPlayers := []
        sessionStartedAt := some (T + 40)
        sessionLastJoinAt := none
        sessionLastJoinRaw := none } := by
    rw [ensureSessionReady_not_ready _ _ _ rfl]
    rw [if_neg (by decide : ¬ (pyStrip "OnJoinedRoom" = ""))]
    rfl
  constructor
  · rw [hd5]
    rw [selfJoinTail_sessionId, selfJoinTail_source, selfJoinTail_seenPlayers,
      selfJoinTail_startedAt, selfJoinTail_lastJoinAt]
    exact ⟨rfl, rfl, rfl, rfl, rfl⟩
  · rw [hd40, hens]
    rw [selfJoinTail_sessionId, selfJoinTail_source, selfJoinTail_ready,
      selfJoinTail_seenPlayers]
    exact ⟨rfl, Nat.lt_succ_self _, rfl, rfl, rfl⟩

/-- The concrete fallback state for the C1 witness: session 1 opened at 100
with one tracked join at 102. -/
def stC1 : TrackerState :=
  { initialState with
    sessionId := 1
    ready := true
    source := "OnPlayerJoined fallback"
    seenPlayers := [("join:1:usr_b", 102)]
    sessionStartedAt := some 100
    sessionLastJoinAt := some 102
    sessionLastJoinRaw := some "raw" }

/-- Claim C1 witness at `T = 100`. -/
theorem C1_witness :
    (handle_self_join true stC1 "" (100 + 5)).1.sessionId = stC1.sessionId ∧
    (handle_self_join true stC1 "" (100 + 5)).1.source = "OnJoinedRoom" ∧
    (handle_self_join true stC1 "" (100 + 5)).1.seenPlayers = stC1.seenPlayers ∧
    (handle_self_join true stC1 "" (100 + 40)).1.sessionId = stC1.sessionId + 1 := by
  have h := C1_fallback_confirmation stC1 100 "join:1:usr_b" "" rfl rfl rfl
    (by decide) (by decide)
  exact ⟨h.1.1, h.1.2.1, h.1.2.2.1, h.2.1⟩

/-! ### Claims C3 and C4: join dedup and leave/rejoin -/

/-- The cooldown for `key` does not suppress a dispatch at time `now`. -/
def cooldownReady (ln : List (String × Int)) (key : String) (now : Int) : Prop :=
  ∀ prev, lookupAssoc ln key = some prev → NOTIFY_COOLDOWN_SECONDS ≤ now - prev

theorem notify_all_sends (st : TrackerState) (key title msg : String) (now : Int)
    (h : cooldownReady st.lastNotified key now) :
    (notify_all st key title msg now).2 = [⟨key, title, msg⟩] := by
  cases hl : lookupAssoc st.lastNotified key with
  | none => simp [notify_all, hl]
  | some prev =>
    have hge := h prev hl
    simp [notify_all, hl, not_lt.mpr hge]

theorem containsKey_append_self (l : List (String × Int)) (k : String) (v : Int) :
    containsKey (l ++ [(k, v)]) k = true := by
  simp [containsKey]

/-- The predicate `is_placeholder_name` holds for the empty string, so non-placeholder
names are non-empty. -/
theorem ne_empty_of_not_placeholder {s : String}
    (h : is_placeholder_name s = false) : s ≠ "" := by
  intro he
  rw [he] at h
  exact absurd h (by decide)

/-- A non-placeholder name with a user id present passes the fixup block
unchanged. -/
theorem joinFinalName_clean (cleanedName cleanedUser : String)
    (hn : is_placeholder_name cleanedName = false) :
    joinFinalName cleanedName cleanedUser = (cleanedName, false) := by
  have hne := ne_empty_of_not_placeholder hn
  simp [joinFinalName, joinNameFixup, hn, hne]

/-- A tracker with no pending self-join record never consumes a join as the
pending self event. -/
theorem pendingHitCheck_none (st : TrackerState) (cp cn : String) (now : Int)
    (h : st.pendingSelfJoin = none) :
    pendingHitCheck st cp cn now = false := by
  simp [pendingHitCheck, h]

/-- The pending self-join consumption test reads the state only through
`pendingSelfJoin` and `sessionId`. -/
theorem pendingHitCheck_congr (st st' : TrackerState) (cp cn : String) (now : Int)
    (h1 : st.pendingSelfJoin = st'.pendingSelfJoin)
    (h2 : st.sessionId = st'.sessionId) :
    pendingHitCheck st cp cn now = pendingHitCheck st' cp cn now := by
  simp only [pendingHitCheck, h1, h2]

/-- The decision chain on a clean path: non-placeholder name, user id
present and different from the learned local user, and no pending self-join
record matching the event. -/
theorem playerJoinSteps_clean (st : TrackerState)
    (cleanedName cleanedPlaceholder cleanedUser userKey rawLine : String) (now : Int)
    (hn : is_placeholder_name cleanedName = false)
    (hu : userKey ≠ "")
    (hcu : cleanedUser ≠ "")
    (hl : st.localUserId ≠ some userKey)
    (hhit : pendingHitCheck st cleanedPlaceholder cleanedName now = false) :
    playerJoinSteps st cleanedName cleanedPlaceholder cleanedUser userKey rawLine now =
      joinFinish st (joinKeyOf st.sessionId userKey "")
        (joinMessage cleanedName cleanedPlaceholder cleanedName false) now := by
  rw [playerJoinSteps]
  rw [if_neg (fun hc => hl hc.2)]
  rw [if_neg (by simp [hhit])]
  rw [if_neg (by simp [hn])]
  rw [if_neg (by simp [hn])]
  rw [joinFinalName_clean cleanedName cleanedUser hn]
  simp [joinKeyBase, joinHashSuffix, hu, hcu]

/-- Lowercasing preserves emptiness. -/
theorem lowerStr_eq_empty_iff (s : String) : lowerStr s = "" ↔ s = "" := by
  constructor
  · intro h
    have hd : (lowerStr s).data = ("" : String).data := by rw [h]
    simp only [lowerStr, lowerL] at hd
    rw [List.map_eq_nil_iff] at hd
    exact String.ext hd
  · intro h
    rw [h]
    rfl

/-- The handler `handle_player_join` on a clean path reduces to `joinFinish` on the
time-stamped state. -/
theorem handle_player_join_clean (st : TrackerState) (name userId rawLine ph : String)
    (now : Int)
    (hready : st.ready = true)
    (hn : is_placeholder_name (normalize_join_name name) = false)
    (hu : pyStrip userId ≠ "")
    (hl : st.localUserId ≠ some (lowerStr (pyStrip userId)))
    (hhit : pendingHitCheck st (normalize_join_name ph) (normalize_join_name name)
      now = false) :
    handle_player_join true st name userId rawLine ph now =
      joinFinish { st with sessionLastJoinAt := some now, sessionLastJoinRaw := some rawLine }
        (joinKeyOf st.sessionId (lowerStr (pyStrip userId)) "")
        (joinMessage (normalize_join_name name) (normalize_join_name ph)
          (normalize_join_name name) false) now := by
  have hlu : lowerStr (pyStrip userId) ≠ "" :=
    fun he => hu ((lowerStr_eq_empty_iff (pyStrip userId)).mp he)
  have hhit' : pendingHitCheck
      { st with sessionLastJoinAt := some now, sessionLastJoinRaw := some rawLine }
      (normalize_join_name ph) (normalize_join_name name) now = false :=
    (pendingHitCheck_congr _ st _ _ _ rfl rfl).trans hhit
  rw [handle_player_join]
  rw [if_neg (by simp)]
  rw [if_neg (by simp [hready]), if_neg (by simp [hready])]
  rw [playerJoinCore]
  rw [if_pos hu]
  exact playerJoinSteps_clean _ _ _ _ _ _ _ hn hlu hu hl hhit'

/-- A fresh key: `joinFinish` records the join and dispatches when the
cooldown allows. -/
theorem joinFinish_fresh (st : TrackerState) (jk msg : String) (now : Int)
    (hfresh : containsKey st.seenPlayers jk = false) :
    (joinFinish st jk msg now).1.seenPlayers = st.seenPlayers ++ [(jk, now)] ∧
    (joinFinish st jk msg now).1.localUserId = st.localUserId ∧
    (joinFinish st jk msg now).1.pendingSelfJoin = st.pendingSelfJoin ∧
    (joinFinish st jk msg now).1.sessionId = st.sessionId ∧
    (joinFinish st jk msg now).1.ready = st.ready ∧
    (cooldownReady st.lastNotified jk now →
      (joinFinish st jk msg now).2 = [⟨jk, APP_NAME, msg⟩]) := by
  rw [joinFinish, if_neg (by simp [hfresh])]
  obtain ⟨ln, h⟩ := notify_all_shape
    { st with seenPlayers := st.seenPlayers ++ [(jk, now)] } jk APP_NAME msg now
  rw [h]
  refine ⟨rfl, rfl, rfl, rfl, rfl, ?_⟩
  intro hc
  exact notify_all_sends _ _ _ _ _ hc

/-- A key already seen: `joinFinish` is a no-op. -/
theorem joinFinish_seen (st : TrackerState) (jk msg : String) (now : Int)
    (hseen : containsKey st.seenPlayers jk = true) :
    joinFinish st jk msg now = (st, []) := by
  rw [joinFinish, if_pos (by simp [hseen])]

/-- Claim C3 (amended): for an open session with the game running, handling
the same `PlayerJoin` event twice — non-empty user id distinct from the
learned local user id, a non-placeholder name, no outstanding pending
self-join record matching the event at either handling time, a not-yet-seen
join key and a clear cooldown — dispatches exactly one notification and
appends exactly one `seenPlayers` entry on the first handling; the second
handling leaves `seenPlayers` unchanged and sends nothing. -/
theorem C3_join_idempotence (st : TrackerState) (name userId rawLine ph : String)
    (now1 now2 : Int)
    (hready : st.ready = true)
    (hn : is_placeholder_name (normalize_join_name name) = false)
    (hu : pyStrip userId ≠ "")
    (hl : st.localUserId ≠ some (lowerStr (pyStrip userId)))
    (hp1 : pendingHitCheck st (normalize_join_name ph) (normalize_join_name name)
      now1 = false)
    (hp2 : pendingHitCheck st (normalize_join_name ph) (normalize_join_name name)
      now2 = false)
    (hfresh : containsKey st.seenPlayers
      (joinKeyOf st.sessionId (lowerStr (pyStrip userId)) "") = false)
    (hcool : cooldownReady st.lastNotified
      (joinKeyOf st.sessionId (lowerStr (pyStrip userId)) "") now1) :
    (handle_player_join true st name userId rawLine ph now1).2.length = 1 ∧
    (handle_player_join true st name userId rawLine ph now1).1.seenPlayers =
      st.seenPlayers ++
        [(joinKeyOf st.sessionId (lowerStr (pyStrip userId)) "", now1)] ∧
    (handle_player_join true (handle_player_join true st name userId rawLine ph now1).1
        name userId rawLine ph now2).1.seenPlayers =
      (handle_player_join true st name userId rawLine ph now1).1.seenPlayers ∧
    (handle_player_join true (handle_player_join true st name userId rawLine ph now1).1
        name userId rawLine ph now2).2 = [] := by
  have h1 := handle_player_join_clean st name userId rawLine ph now1 hready hn hu hl hp1
  obtain ⟨hsp, hlu, hps, hsid, hrdy, hout⟩ := joinFinish_fresh
    { st with sessionLastJoinAt := some now1, sessionLastJoinRaw := some rawLine }
    (joinKeyOf st.sessionId (lowerStr (pyStrip userId)) "")
    (joinMessage (normalize_join_name name) (normalize_join_name ph)
      (normalize_join_name name) false) now1 hfresh
  have hready2 : (handle_player_join true st name userId rawLine ph now1).1.ready = true := by
    rw [h1, hrdy]
    exact hready
  have hl2 : (handle_player_join true st name userId rawLine ph now1).1.localUserId ≠
      some (lowerStr (pyStrip userId)) := by
    rw [h1, hlu]
    exact hl
  have hsid2 : (handle_player_join true st name userId rawLine ph now1).1.sessionId =
      st.sessionId := by
    rw [h1, hsid]
  have hps2 : (handle_player_join true st name userId rawLine ph now1).1.pendingSelfJoin =
      st.pendingSelfJoin := by
    rw [h1, hps]
  have hhit2 : pendingHitCheck (handle_player_join true st name userId rawLine ph now1).1
      (normalize_join_name ph) (normalize_join_name name) now2 = false :=
    (pendingHitCheck_congr _ st _ _ _ hps2 hsid2).trans hp2
  have h2 := handle_player_join_clean
    (handle_player_join true st name userId rawLine ph now1).1 name userId rawLine ph
    now2 hready2 hn hu hl2 hhit2
  have hseen2 : containsKey (handle_player_join true st name userId rawLine ph
      now1).1.seenPlayers
      (joinKeyOf (handle_player_join true st name userId rawLine ph now1).1.sessionId
        (lowerStr (pyStrip userId)) "") = true := by
    rw [hsid2, h1, hsp]
    exact containsKey_append_self _ _ _
  have h2fin := joinFinish_seen
    { (handle_player_join true st name userId rawLine ph now1).1 with
      sessionLastJoinAt := some now2
      sessionLastJoinRaw := some rawLine }
    (joinKeyOf (handle_player_join true st name userId rawLine ph now1).1.sessionId
      (lowerStr (pyStrip userId)) "")
    (joinMessage (normalize_join_name name) (normalize_join_name ph)
      (normalize_join_name name) false) now2 hseen2
  refine ⟨?_, ?_, ?_, ?_⟩
  · rw [h1, hout hcool]
    rfl
  · rw [h1, hsp]
  · rw [h2, h2fin]
  · rw [h2, h2fin]

/-- The state for the C3 counterexample: an open confirmed session with a
learned local user `usr_x` and a matching pending self-join outstanding. -/
def stC3 : TrackerState :=
  { initialState with
    sessionId := 7
    ready := true
    source := "OnJoinedRoom"
    sessionStartedAt := some 100
    localUserId := some "usr_x"
    pendingSelfJoin := some ⟨7, "Player", 100⟩ }

/-- Claim C3 counterexample: under the claim's stated conditions (open
session, same non-empty user id `usr_9` distinct from the learned local id,
game running), handling the same `PlayerJoin` twice does NOT leave the
second handling silent — the first handling is consumed by the pending
self-join window (no notification, no entry) and the second handling
dispatches a notification and appends a `seenPlayers` entry. -/
theorem C3_counterexample :
    stC3.localUserId = some "usr_x" ∧
    (handle_player_join true stC3 "Player" "usr_9" "r" "" 105).2 = [] ∧
    (handle_player_join true (handle_player_join true stC3 "Player" "usr_9" "r" "" 105).1
        "Player" "usr_9" "r" "" 106).2.length = 1 ∧
    (handle_player_join true (handle_player_join true stC3 "Player" "usr_9" "r" "" 105).1
        "Player" "usr_9" "r" "" 106).1.seenPlayers ≠
      (handle_player_join true stC3 "Player" "usr_9" "r" "" 105).1.seenPlayers := by
  refine ⟨rfl, rfl, rfl, ?_⟩
  decide

/-- The open session for the C3 witness, carrying an outstanding pending
self-join record that does not match the event (its placeholder `Alice` is
not in the `player`/`you` class). -/
def stC3w : TrackerState :=
  { initialState with
    sessionId := 2
    ready := true
    source := "OnJoinedRoom"
    sessionStartedAt := some 0
    pendingSelfJoin := some ⟨2, "Alice", 0⟩ }

/-- Claim C3 witness: a concrete double delivery of `Bob (usr_9)`. -/
theorem C3_witness :
    (handle_player_join true stC3w "Bob" "usr_9" "raw" "" 5).2.length = 1 ∧
    (handle_player_join true (handle_player_join true stC3w "Bob" "usr_9" "raw" "" 5).1
        "Bob" "usr_9" "raw" "" 6).1.seenPlayers =
      (handle_player_join true stC3w "Bob" "usr_9" "raw" "" 5).1.seenPlayers ∧
    (handle_player_join true (handle_player_join true stC3w "Bob" "usr_9" "raw" "" 5).1
        "Bob" "usr_9" "raw" "" 6).2 = [] := by
  have h := C3_join_idempotence stC3w "Bob" "usr_9" "raw" "" 5 6 rfl (by decide)
    (by decide) (by decide) (by decide) (by decide) (by decide)
    (by intro prev hx; simp [lookupAssoc, stC3w, initialState] at hx)
  exact ⟨h.1, h.2.2.1, h.2.2.2⟩

/-- The handler `handle_player_left` with a user id present and no local-identity
learning triggered removes exactly the keys prefixed by this session's
join-key prefix for the user. -/
theorem handle_player_left_clean (st : TrackerState) (name userId rawLine : String)
    (hu : pyStrip userId ≠ "")
    (hnl : ¬ (is_placeholder_name (normalize_join_name name) = true ∧
        st.localUserId = none)) :
    (handle_player_left st name userId rawLine).1 =
      { st with seenPlayers := (removeUserKeys st.seenPlayers
          ("join:" ++ Nat.repr st.sessionId ++ ":" ++ lowerStr (pyStrip userId))) } := by
  have hlu : lowerStr (pyStrip userId) ≠ "" :=
    fun he => hu ((lowerStr_eq_empty_iff (pyStrip userId)).mp he)
  rw [handle_player_left]
  rw [if_pos hu]
  rw [if_neg (show ¬ (is_placeholder_name (normalize_join_name name) = true ∧
      lowerStr (pyStrip userId) ≠ "" ∧ st.localUserId = none) from
      fun hc => hnl ⟨hc.1, hc.2.2⟩)]
  rw [if_pos hlu]

/-- Everything left in `seenPlayers` after the removal misses the prefix. -/
theorem removeUserKeys_complete (l : List (String × Int)) (keyStart : String) :
    ∀ p ∈ removeUserKeys l keyStart, ¬ keyStart.data.isPrefixOf p.1.data := by
  intro p hp
  rw [removeUserKeys, List.mem_filter] at hp
  exact of_decide_eq_true hp.2

/-- After removing every key with the given prefix, a key that has the
prefix is no longer present. -/
theorem containsKey_removeUserKeys (l : List (String × Int)) (keyStart : String)
    (k : String) (hk : keyStart.data.isPrefixOf k.data = true) :
    containsKey (removeUserKeys l keyStart) k = false := by
  rw [containsKey]
  rw [Bool.eq_false_iff]
  intro htrue
  rw [List.any_eq_true] at htrue
  obtain ⟨p, hp, hpk⟩ := htrue
  have hnp := removeUserKeys_complete l keyStart p hp
  have hpk2 := of_decide_eq_true hpk
  rw [hpk2] at hnp
  exact hnp hk

/-- The join-key prefix for a user is a prefix of the hashless join key. -/
theorem keyStart_isPrefixOf_joinKey (sessionId : Nat) (userKey : String) :
    ("join:" ++ Nat.repr sessionId ++ ":" ++ userKey).data.isPrefixOf
      (joinKeyOf sessionId userKey "").data = true := by
  rw [joinKeyOf, if_neg (by simp)]
  rw [show (("join:" ++ Nat.repr sessionId ++ ":" ++ userKey ++ "").data) =
    ("join:" ++ Nat.repr sessionId ++ ":" ++ userKey).data ++ ("" : String).data from rfl]
  rw [ List.isPrefixOf_iff_prefix]
  exact List.prefix_append _ _

/-- Claim C4 (amended): a `PlayerLeft` with a non-empty user id removes every
`seenPlayers` entry whose key carries this session's join-key prefix for that
user; provided that the leave does not trigger local-identity learning, the
user id is not the learned local id, no pending self-join is outstanding, the
rejoin name is not a placeholder and the cooldown has expired, a subsequent
`PlayerJoin` for the same id in the same session is treated as new: it
dispatches a notification and records the join key again. -/
theorem C4_leave_rejoin (st : TrackerState)
    (leaveName joinName userId rawL rawJ ph : String) (now : Int)
    (hready : st.ready = true)
    (hu : pyStrip userId ≠ "")
    (hnl : ¬ (is_placeholder_name (normalize_join_name leaveName) = true ∧
        st.localUserId = none))
    (hl : st.localUserId ≠ some (lowerStr (pyStrip userId)))
    (hp : st.pendingSelfJoin = none)
    (hn : is_placeholder_name (normalize_join_name joinName) = false)
    (hcool : cooldownReady st.lastNotified
      (joinKeyOf st.sessionId (lowerStr (pyStrip userId)) "") now) :
    (∀ p ∈ (handle_player_left st leaveName userId rawL).1.seenPlayers,
      ¬ ("join:" ++ Nat.repr st.sessionId ++ ":" ++
        lowerStr (pyStrip userId)).data.isPrefixOf p.1.data) ∧
    (handle_player_join true (handle_player_left st leaveName userId rawL).1
        joinName userId rawJ ph now).2.length = 1 ∧
    containsKey (handle_player_join true (handle_player_left st leaveName userId rawL).1
        joinName userId rawJ ph now).1.seenPlayers
      (joinKeyOf st.sessionId (lowerStr (pyStrip userId)) "") = true := by
  have hleft := handle_player_left_clean st leaveName userId rawL hu hnl
  have hready1 : (handle_player_left st leaveName userId rawL).1.ready = true := by
    rw [hleft]
    exact hready
  have hl1 : (handle_player_left st leaveName userId rawL).1.localUserId ≠
      some (lowerStr (pyStrip userId)) := by
    rw [hleft]
    exact hl
  have hp1 : (handle_player_left st leaveName userId rawL).1.pendingSelfJoin = none := by
    rw [hleft]
    exact hp
  have hhit1 : pendingHitCheck (handle_player_left st leaveName userId rawL).1
      (normalize_join_name ph) (normalize_join_name joinName) now = false :=
    pendingHitCheck_none _ _ _ _ hp1
  have hjoin := handle_player_join_clean (handle_player_left st leaveName userId rawL).1
    joinName userId rawJ ph now hready1 hn hu hl1 hhit1
  have hsid1 : (handle_player_left st leaveName userId rawL).1.sessionId =
      st.sessionId := by
    rw [hleft]
  have hfresh1 : containsKey (handle_player_left st leaveName userId rawL).1.seenPlayers
      (joinKeyOf (handle_player_left st leaveName userId rawL).1.sessionId
        (lowerStr (pyStrip userId)) "") = true → False := by
    intro hcon
    rw [hsid1, hleft] at hcon
    rw [containsKey_removeUserKeys _ _ _
      (keyStart_isPrefixOf_joinKey st.sessionId (lowerStr (pyStrip userId)))] at hcon
    exact Bool.false_ne_true hcon
  have hfresh1b : containsKey (handle_player_left st leaveName userId rawL).1.seenPlayers
      (joinKeyOf (handle_player_left st leaveName userId rawL).1.sessionId
        (lowerStr (pyStrip userId)) "") = false := by
    cases hb : containsKey (handle_player_left st leaveName userId rawL).1.seenPlayers
      (joinKeyOf (handle_player_left st leaveName userId rawL).1.sessionId
        (lowerStr (pyStrip userId)) "") with
    | false => rfl
    | true => exact absurd hb (fun hb2 => hfresh1 hb2)
  obtain ⟨hsp, hlu, hps, hsid, hrdy, hout⟩ := joinFinish_fresh
    { (handle_player_left st leaveName userId rawL).1 with
      sessionLastJoinAt := some now
      sessionLastJoinRaw := some rawJ }
    (joinKeyOf (handle_player_left st leaveName userId rawL).1.sessionId
      (lowerStr (pyStrip userId)) "")
    (joinMessage (normalize_join_name joinName) (normalize_join_name ph)
      (normalize_join_name joinName) false) now hfresh1b
  have hcool1 : cooldownReady
      (handle_player_left st leaveName userId rawL).1.lastNotified
      (joinKeyOf (handle_player_left st leaveName userId rawL).1.sessionId
        (lowerStr (pyStrip userId)) "") now := by
    rw [hsid1, hleft]
    exact hcool
  refine ⟨?_, ?_, ?_⟩
  · rw [hleft]
    exact removeUserKeys_complete st.seenPlayers _
  · rw [hjoin, hout hcool1]
    rfl
  · rw [hjoin]
    rw [show joinKeyOf st.sessionId (lowerStr (pyStrip userId)) "" =
      joinKeyOf (handle_player_left st leaveName userId rawL).1.sessionId
        (lowerStr (pyStrip userId)) "" from by rw [hsid1]]
    rw [hsp]
    exact containsKey_append_self _ _ _

/-- The state for the C4 counterexample: an open session, no learned local
user, and one tracked join for `usr_9`. -/
def stC4 : TrackerState :=
  { initialState with
    sessionId := 3
    ready := true
    source := "OnJoinedRoom"
    sessionStartedAt := some 50
    seenPlayers := [("join:3:usr_9", 50)] }

/-- Claim C4 counterexample: a placeholder-named leave for `usr_9` removes
the `seenPlayers` entry but also learns `usr_9` as the local user, so the
subsequent rejoin of `usr_9` is suppressed — no notification and no new
entry, contradicting "triggers a notification again". -/
theorem C4_counterexample :
    (handle_player_left stC4 "Player" "usr_9" "r").1.localUserId = some "usr_9" ∧
    (handle_player_left stC4 "Player" "usr_9" "r").1.seenPlayers = [] ∧
    (handle_player_join true (handle_player_left stC4 "Player" "usr_9" "r").1
        "Bob" "usr_9" "r2" "" 100).2 = [] ∧
    (handle_player_join true (handle_player_left stC4 "Player" "usr_9" "r").1
        "Bob" "usr_9" "r2" "" 100).1.seenPlayers = [] := by
  exact ⟨rfl, rfl, rfl, rfl⟩

/-- The state for the C4 witness: like `stC4` but with the local user
already known to be someone else, so no learning is triggered. -/
def stC4w : TrackerState :=
  { initialState with
    sessionId := 3
    ready := true
    source := "OnJoinedRoom"
    sessionStartedAt := some 50
    seenPlayers := [("join:3:usr_9", 50)]
    localUserId := some "usr_x" }

/-- Claim C4 witness: leave then rejoin of `usr_9` notifies again. -/
theorem C4_witness :
    (∀ p ∈ (handle_player_left stC4w "Bob" "usr_9" "r").1.seenPlayers,
      ¬ ("join:" ++ Nat.repr stC4w.sessionId ++ ":" ++
        lowerStr (pyStrip "usr_9")).data.isPrefixOf p.1.data) ∧
    (handle_player_join true (handle_player_left stC4w "Bob" "usr_9" "r").1
        "Bob" "usr_9" "r2" "" 100).2.length = 1 ∧
    containsKey (handle_player_join true (handle_player_left stC4w "Bob" "usr_9" "r").1
        "Bob" "usr_9" "r2" "" 100).1.seenPlayers
      (joinKeyOf stC4w.sessionId (lowerStr (pyStrip "usr_9")) "") = true := by
  exact C4_leave_rejoin stC4w "Bob" "Bob" "usr_9" "r" "r2" "" 100 rfl (by decide)
    (by decide) (by decide) rfl (by decide)
    (by intro prev hx; simp [lookupAssoc, stC4w, initialState] at hx)

/-! ### Claim C7: the log locator -/

theorem head?_mem {α : Type} (l : List α) (a : α) (h : l.head? = some a) : a ∈ l := by
  cases l with
  | nil => cases h
  | cons b t =>
    have hba : b = a := by simpa using h
    rw [← hba]
    exact List.mem_cons_self b t

/-- The head of a list sorted newest-first has a maximal score. -/
theorem sorted_head_max (l : List FsEntry) (e : FsEntry)
    (hs : List.Sorted newerFirst l) (he : l.head? = some e) :
    ∀ x ∈ l, score_log_file x ≤ score_log_file e := by
  cases l with
  | nil => cases he
  | cons a t =>
    have hae : a = e := by simpa using he
    subst hae
    intro x hx
    rcases List.mem_cons.mp hx with h | h
    · rw [h]
    · exact (List.sorted_cons.mp hs).1 x h

/-- The file used to refute the claim's candidate description: its name
starts with `output_log_` but matches neither the reserved name nor the
timestamped rotation pattern. -/
def entC7 : FsEntry := ⟨"output_log_current.txt", true, 5, 5⟩

/-- Claim C7 counterexample: `get_newest_log_path` returns
`output_log_current.txt` even though it is not in the claimed candidate set
(exact reserved filename or full rotation pattern) — the code filters only
on the `output_log_` prefix. -/
theorem C7_counterexample :
    get_newest_log_path (some [entC7]) = some entC7 ∧
    claimedLogCandidate entC7 = false := by
  exact ⟨rfl, rfl⟩

/-- Claim C7 (amended): `get_newest_log_path` returns `none` for an absent
directory or when no candidate exists, where the candidates are the regular
files whose lowercased name is exactly `player.log` or starts with
`output_log_`; otherwise it returns a candidate with maximal score, the
score being the larger of the filesystem timestamps and the timestamp parsed
from a rotation-pattern filename. -/
theorem C7_log_locator (entries : List FsEntry) (e : FsEntry) :
    get_newest_log_path none = none ∧
    (entries.filter isCodeCandidate = [] → get_newest_log_path (some entries) = none) ∧
    (get_newest_log_path (some entries) = some e →
      e ∈ entries.filter isCodeCandidate ∧
      ∀ x ∈ entries.filter isCodeCandidate,
        score_log_file x ≤ score_log_file e) := by
  refine ⟨rfl, ?_, ?_⟩
  · intro h
    simp [get_newest_log_path, h]
  · intro h
    rw [get_newest_log_path] at h
    by_cases hc : (entries.filter isCodeCandidate).isEmpty
    · rw [if_pos hc] at h
      cases h
    · rw [if_neg hc] at h
      constructor
      · exact (List.mem_insertionSort newerFirst).mp
          (head?_mem _ e h)
      · intro x hx
        exact sorted_head_max _ e (List.sorted_insertionSort newerFirst _) h x
          ((List.mem_insertionSort newerFirst).mpr hx)

/-- Witness entries: the reserved file with newer filesystem timestamps, and
a rotation file whose embedded timestamp dominates. -/
def entC7a : FsEntry := ⟨"Player.log", true, 100, 90⟩

def entC7b : FsEntry := ⟨"output_log_2024-01-02_03-04-05.txt", true, 10, 10⟩

/-- Claim C7 witness: on the two-entry directory the rotation file wins by
its embedded timestamp. -/
theorem C7_witness :
    entC7b ∈ List.filter isCodeCandidate [entC7a, entC7b] ∧
    ∀ x ∈ List.filter isCodeCandidate [entC7a, entC7b],
      score_log_file x ≤ score_log_file entC7b :=
  (C7_log_locator [entC7a, entC7b] entC7b).2.2 rfl

end VRChatJoin
